import Mathlib

/-
  Verification of the NixPersist configuration-mutation engine.

  The Go sources are shallowly embedded: Go strings become `List Char`,
  pure functions become Lean functions, and the file-touching installers
  become explicit state transformers on `Option (List Char)` (the target
  file's content, or `none` when the file does not exist).  External
  command execution (systemctl / service / docker) is modelled by an
  environment record recording which tools are present and what each
  invocation would return.
-/

namespace NixPersist

abbrev Str := List Char

/-- Whitespace set used by Go's strings.TrimSpace (ASCII portion). -/
def goSpace (c : Char) : Bool :=
  c == ' ' || c == '\t' || c == '\n' || c == '\x0b' || c == '\x0c' || c == '\r'

/-- Go strings.TrimSpace on ASCII content: drop whitespace from both ends. -/
def trimSpace (s : Str) : Str :=
  ((s.dropWhile goSpace).reverse.dropWhile goSpace).reverse

/-- Go strings.TrimLeft(s, "\n"). -/
def trimLeftNl (s : Str) : Str := s.dropWhile (fun c => c == '\n')

/-- Go bytes.TrimRight(s, "\r\n"). -/
def trimRightNlCr (s : Str) : Str :=
  (s.reverse.dropWhile (fun c => c == '\r' || c == '\n')).reverse

/-- Go strings.Index: first index at which `needle` occurs in `s`,
`none` when absent (Go returns -1). -/
def indexOfSub : Str → Str → Option Nat
  | [], needle => if needle.isEmpty then some 0 else none
  | c :: rest, needle =>
    if needle.isPrefixOf (c :: rest) then some 0
    else (indexOfSub rest needle).map (· + 1)

/-- Go strings.Contains / bytes.Contains. -/
def containsSub (s needle : Str) : Bool := (indexOfSub s needle).isSome

/-- Go strings.HasSuffix / bytes.HasSuffix. -/
def hasSuffixB (s suf : Str) : Bool := suf.isSuffixOf s

/-- Go strings.ReplaceAll for a non-empty pattern: scan left to right,
replacing non-overlapping occurrences of `old` by `new`.  The scan is
written with a character-count fuel so the recursion is structural; every
step consumes at least one character, so `s.length` fuel always suffices. -/
def replaceAllF (old new : Str) : Nat → Str → Str
  | _, [] => []
  | 0, s => s
  | fuel + 1, c :: rest =>
    if old.isPrefixOf (c :: rest) ∧ old ≠ [] then
      new ++ replaceAllF old new fuel (rest.drop (old.length - 1))
    else
      c :: replaceAllF old new fuel rest

def replaceAll (old new s : Str) : Str := replaceAllF old new s.length s

/-- Go strings.Split(s, "\n"). -/
def splitNl : Str → List Str
  | [] => [[]]
  | c :: r =>
    if c = '\n' then [] :: splitNl r
    else
      match splitNl r with
      | [] => [[c]]
      | l :: ls => (c :: l) :: ls

/-- Go strings.Join(lines, "\n"). -/
def joinNl : List Str → Str
  | [] => []
  | [l] => l
  | l :: ls => l ++ '\n' :: joinNl ls

/-!
### Apache CustomLog mechanism, marker-block variant
Embedded from internal/apachelog (src/unnamed/part_005 first section:
markers, ConfigParams, Validate, RenderConfig; src/unnamed/part_003:
Install, Remove, readConfig).  File I/O is modelled by threading the
target file's state (`Option Str`: content, or `none` when absent); the
only state change mirrors the single os.WriteFile call.  The systemctl
restart performed by restartApache is modelled by its outcome
`restartErr : Option Str` (`none` = success).
-/

namespace Apachelog

def startMarker : Str := "# BEGIN NixPersist apache-log".toList

def endMarker : Str := "# END NixPersist apache-log".toList

def logFormat : Str := "error".toList

structure ConfigParams where
  Payload : Str

/-- Validate from src/unnamed/part_005. -/
def Validate (p : ConfigParams) : Except Str Unit :=
  let payload := trimSpace p.Payload
  if payload = [] then .error "payload is required".toList
  else if containsSub payload ['\n'] then .error "payload must not contain newlines".toList
  else if payload.any (fun c => c == '"' || c == '<' || c == '>') then
    .error "payload must not contain quotes or angle brackets".toList
  else if ¬ (['/'].isPrefixOf payload) then .error "payload must be an absolute path".toList
  else .ok ()

/-- RenderConfig from src/unnamed/part_005: marker, CustomLog line, marker. -/
def RenderConfig (p : ConfigParams) : Except Str Str :=
  match Validate p with
  | .error e => .error e
  | .ok _ =>
    .ok (startMarker ++ '\n' ::
         ("CustomLog \"|".toList ++ trimSpace p.Payload ++ "\" ".toList ++ logFormat ++ ['\n'])
         ++ endMarker ++ ['\n'])

def errMissing : Str := "apache configuration does not exist".toList

def errAlready : Str := "apache-log snippet already present in configuration".toList

def errNotFound : Str := "apache-log snippet not found in configuration".toList

def errEndMissing : Str := "apache-log snippet end marker missing".toList

/-- The buffer construction inside Install: original content, a newline if
one is missing, a blank separator line when the file is non-empty, then the
rendered fragment. -/
def insertContent (original cfg : Str) : Str :=
  let b2 := if 0 < original.length ∧ hasSuffixB original ['\n'] = false
    then original ++ ['\n'] else original
  let b3 := if 0 < b2.length then b2 ++ ['\n'] else b2
  b3 ++ cfg

/-- Install from src/unnamed/part_003.  readConfig's missing-file branch is
the `none` case; os.WriteFile is the state update. -/
def Install (p : ConfigParams) (file : Option Str) (restart : Bool)
    (restartErr : Option Str) : Except Str Unit × Option Str :=
  match RenderConfig p with
  | .error e => (.error e, file)
  | .ok cfg =>
    match file with
    | none => (.error errMissing, none)
    | some original =>
      if containsSub original startMarker then (.error errAlready, some original)
      else
        let file' := some (insertContent original cfg)
        if restart then
          match restartErr with
          | some e => (.error e, file')
          | none => (.ok (), file')
        else (.ok (), file')

def isWT (c : Char) : Bool := c == ' ' || c == '\t'

/-- The backward scan in Remove: from index i, step down while the character
is a space or tab; `none` when the scan runs past index 0 (Go's i = -1). -/
def backScanWT (content : Str) : Nat → Option Nat
  | 0 => if (content[0]?.any isWT) then none else some 0
  | i + 1 => if (content[i + 1]?.any isWT) then backScanWT content i else some (i + 1)

/-- trimStart adjustment in Remove (src/unnamed/part_003 lines 86-98). -/
def computeTrimStart (content : Str) (start : Nat) : Nat :=
  if 0 < start then
    match backScanWT content (start - 1) with
    | none => start
    | some i =>
      if content[i]? = some '\n' then
        if 0 < i ∧ content[i - 1]? = some '\n' then i - 1 else i
      else start
  else start

/-- trimEnd scan in Remove: advance over '\n' and '\r'. -/
def computeTrimEnd (content : Str) (e : Nat) : Nat :=
  e + ((content.drop e).takeWhile (fun c => c == '\n' || c == '\r')).length

/-- Remove from src/unnamed/part_003. -/
def Remove (file : Option Str) (restart : Bool) (restartErr : Option Str) :
    Except Str Unit × Option Str :=
  match file with
  | none => (.error errMissing, none)
  | some content =>
    match indexOfSub content startMarker with
    | none => (.error errNotFound, some content)
    | some start =>
      match indexOfSub (content.drop start) endMarker with
      | none => (.error errEndMissing, some content)
      | some e0 =>
        let e := e0 + start + endMarker.length
        let ts := computeTrimStart content start
        let te := computeTrimEnd content e
        let res0 := content.take ts ++
          (if te < content.length then '\n' :: trimLeftNl (content.drop te) else [])
        let result := if 0 < res0.length ∧ res0.getLast? ≠ some '\n'
          then res0 ++ ['\n'] else res0
        let file' := some result
        if restart then
          match restartErr with
          | some er => (.error er, file')
          | none => (.ok (), file')
        else (.ok (), file')

end Apachelog

/-!
### rsyslog shell mechanism, exact-line variant
Embedded from src/unnamed/part_000 (RenderShellConfig rendering a single
directive line, isShellDirective, removeShellDirective).
-/

namespace ShellLine

structure ShellConfigParams where
  Trigger : Str
  Payload : Str

/-- Validate from src/unnamed/part_000. -/
def Validate (p : ShellConfigParams) : Except Str Unit :=
  if trimSpace p.Trigger = [] then .error "Trigger is required".toList
  else if trimSpace p.Payload = [] then .error "Payload is required".toList
  else if containsSub p.Trigger ['\n'] then .error "Trigger must not contain newlines".toList
  else if containsSub p.Payload ['\n'] then .error "Payload must not contain newlines".toList
  else .ok ()

/-- strings.ReplaceAll(trigger, quote, backslash-backslash-quote): the Go
source writes the replacement as a raw string of three characters. -/
def escapedTrigger (t : Str) : Str := replaceAll ['"'] ['\\', '\\', '"'] t

def dirHead : Str := ":msg, contains, \"".toList

/-- The single directive line built by fmt.Sprintf in RenderShellConfig. -/
def directiveLine (p : ShellConfigParams) : Str :=
  dirHead ++ escapedTrigger p.Trigger ++ "\" ^".toList ++ trimSpace p.Payload

/-- RenderShellConfig from src/unnamed/part_000: one directive line. -/
def RenderShellConfig (p : ShellConfigParams) : Except Str Str :=
  match Validate p with
  | .error e => .error e
  | .ok _ => .ok (directiveLine p ++ ['\n'])

/-- isShellDirective from src/unnamed/part_000. -/
def isShellDirective (line : Str) : Bool :=
  let l := trimSpace line
  if dirHead.isPrefixOf l then
    match indexOfSub (l.drop dirHead.length) ['"'] with
    | none => false
    | some quoteIdx =>
      let action := trimSpace ((l.drop dirHead.length).drop (quoteIdx + 1))
      if ['^'].isPrefixOf action then !(trimSpace (action.drop 1)).isEmpty else false
  else false

/-- Skip a single blank line right after the removed directive. -/
def skipBlankHead : List Str → List Str
  | [] => []
  | b :: rest => if (trimSpace b).isEmpty then rest else b :: rest

/-- The removal loop of removeShellDirective: delete the first directive
line (and one following blank line); `none` when no line matches. -/
def removeFirstDirective : List Str → Option (List Str)
  | [] => none
  | l :: rest =>
    if isShellDirective l then some (skipBlankHead rest)
    else (removeFirstDirective rest).map (l :: ·)

/-- Trailing-blank-line trim of removeShellDirective. -/
def dropTrailingBlanks (ls : List Str) : List Str :=
  (ls.reverse.dropWhile (fun l => (trimSpace l).isEmpty)).reverse

/-- removeShellDirective from src/unnamed/part_000. -/
def removeShellDirective (content : Str) : Str × Bool :=
  match removeFirstDirective (splitNl content) with
  | none => (content, false)
  | some res =>
    let res := dropTrailingBlanks res
    if res = [] then ([], true)
    else (joinNl res ++ ['\n'], true)

end ShellLine

/-!
### rsyslog shell mechanism, marker-block variant
Embedded from src/internal/rsyslog/shell.go.  InstallShell/RemoveShell are
modelled as state transformers on the target file; os.Geteuid()==0 becomes
`isRoot`, reloadRsyslog's outcome becomes `reloadErr : Option Str`.
-/

namespace ShellBlock

def shellMarkerStart : Str := "# BEGIN NixPersist shell execute".toList

def shellMarkerEnd : Str := "# END NixPersist shell execute".toList

structure ShellConfigParams where
  Trigger : Str
  Payload : Str

/-- Validate from src/internal/rsyslog/shell.go. -/
def Validate (p : ShellConfigParams) : Except Str Unit :=
  if trimSpace p.Trigger = [] then .error "Trigger is required".toList
  else if trimSpace p.Payload = [] then .error "Payload is required".toList
  else if containsSub p.Trigger ['\n'] then .error "Trigger must not contain newlines".toList
  else if containsSub p.Payload ['\n'] then .error "Payload must not contain newlines".toList
  else .ok ()

/-- RenderShellConfig from src/internal/rsyslog/shell.go: the directive line
wrapped between the start and end markers. -/
def RenderShellConfig (p : ShellConfigParams) : Except Str Str :=
  match Validate p with
  | .error e => .error e
  | .ok _ =>
    .ok (shellMarkerStart ++ '\n' ::
         (ShellLine.dirHead ++ ShellLine.escapedTrigger p.Trigger ++ "\" ^".toList
          ++ trimSpace p.Payload)
         ++ '\n' :: shellMarkerEnd ++ ['\n'])

/-- The cutStart adjustment of removeShellBlock: step back over a preceding
blank line (with optional carriage return). -/
def cutStartOf (content : Str) (start : Nat) : Nat :=
  if 0 < start ∧ content[start - 1]? = some '\n' then
    let prev := start - 1
    let prev := if 0 < prev ∧ content[prev - 1]? = some '\r' then prev - 1 else prev
    if prev = 0 ∨ content[prev - 1]? = some '\n' then prev else start
  else start

/-- removeShellBlock from src/internal/rsyslog/shell.go. -/
def removeShellBlock (content : Str) : Str × Bool :=
  match indexOfSub content shellMarkerStart with
  | none => (content, false)
  | some start =>
    match indexOfSub (content.drop start) shellMarkerEnd with
    | none => (content, false)
    | some e0 =>
      let e1 := e0 + start + shellMarkerEnd.length
      let e2 := e1 + ((content.drop e1).takeWhile (fun c => c == '\r' || c == '\n')).length
      let updated := trimRightNlCr (content.take (cutStartOf content start) ++ content.drop e2)
      (if 0 < updated.length then updated ++ ['\n'] else updated, true)

/-- InstallShell from src/internal/rsyslog/shell.go.  A missing file is read
as empty (os.ErrNotExist is tolerated) and os.OpenFile(O_CREATE|O_APPEND)
creates it; os.MkdirAll always succeeds in the model. -/
def InstallShell (isRoot : Bool) (cfg : Str) (file : Option Str)
    (reloadErr : Option Str) : Except Str Unit × Option Str :=
  if isRoot = false then
    (.error "installer: root privileges required (run with sudo)".toList, file)
  else if cfg = [] then
    (.error "installer: empty configuration provided".toList, file)
  else
    let existing := file.getD []
    if containsSub existing shellMarkerStart then
      (.error "rsyslog shell snippet already present".toList, file)
    else
      let newContent :=
        (if 0 < existing.length ∧ hasSuffixB existing ['\n'] = false
         then existing ++ ['\n'] else existing) ++ cfg
      let file' := some newContent
      match reloadErr with
      | some e => (.error ("reload rsyslog: ".toList ++ e), file')
      | none => (.ok (), file')

/-- RemoveShell from src/internal/rsyslog/shell.go. -/
def RemoveShell (isRoot : Bool) (file : Option Str) (reloadErr : Option Str) :
    Except Str Unit × Option Str :=
  if isRoot = false then
    (.error "remove: root privileges required (run with sudo)".toList, file)
  else
    match file with
    | none => (.error "read: no such file or directory".toList, none)
    | some data =>
      let res := removeShellBlock data
      if res.2 = false then
        (.error "rsyslog shell snippet not found".toList, some data)
      else
        let file' := some res.1
        match reloadErr with
        | some e => (.error ("reload rsyslog after removal: ".toList ++ e), file')
        | none => (.ok (), file')

end ShellBlock

/-!
### rsyslog imfile/omprog renderer
Embedded from src/internal/rsyslog/config.go (ConfigParams, Validate,
escapeQuotes, RenderConfig).
-/

namespace RsOmprog

structure ConfigParams where
  InputFile : Str
  Tag : Str
  Severity : Str
  Facility : Str
  AddMetadata : Bool
  PollingInterval : Int
  RulesetName : Str
  UseRuleset : Bool
  StateFile : Str
  FilterContains : Str
  FilterRegex : Str
  FilterByTag : Bool
  ProgramPath : Str
  ProgramArgs : Str

/-- Validate from src/internal/rsyslog/config.go. -/
def Validate (p : ConfigParams) : Except Str Unit :=
  if p.InputFile = [] then .error "InputFile is required".toList
  else if p.ProgramPath = [] then .error "ProgramPath is required".toList
  else if p.Tag = [] then .error "tag is required".toList
  else if p.UseRuleset ∧ p.RulesetName = [] then
    .error "RulesetName is required when UseRuleset is true".toList
  else if p.FilterContains = [] ∧ p.FilterRegex = [] then
    .error "at least one of FilterContains or FilterRegex must be set".toList
  else .ok ()

/-- escapeQuotes from src/internal/rsyslog/config.go.  The Go source writes
the patterns as raw strings, so the first ReplaceAll's pattern is TWO
backslash characters (replaced by four) and the second rewrites a double
quote into backslash-backslash-quote.  This is embedded exactly as the code
behaves, not as its comment describes. -/
def escapeQuotes (s : Str) : Str :=
  let s1 := replaceAll ['\\', '\\'] ['\\', '\\', '\\', '\\'] s
  replaceAll ['"'] ['\\', '\\', '"'] s1

def renderModules (p : ConfigParams) : Str :=
  (if p.PollingInterval > 0
   then "module(load=\"imfile\" PollingInterval=\"".toList
        ++ (toString p.PollingInterval).toList ++ "\")\n".toList
   else "module(load=\"imfile\")\n".toList)
  ++ "module(load=\"omprog\")\n\n".toList

def renderInput (p : ConfigParams) : Str :=
  "input(\n\ttype=\"imfile\"\n\tFile=\"".toList ++ p.InputFile
  ++ "\"\n\tTag=\"".toList ++ p.Tag ++ "\"\n".toList
  ++ (if p.Severity ≠ [] then "\tSeverity=\"".toList ++ p.Severity ++ "\"\n".toList else [])
  ++ (if p.Facility ≠ [] then "\tFacility=\"".toList ++ p.Facility ++ "\"\n".toList else [])
  ++ (if p.AddMetadata then "\taddMetadata=\"on\"\n".toList else [])
  ++ "\treopenOnTruncate=\"on\"\n".toList
  ++ (if p.StateFile ≠ [] then "\tStateFile=\"".toList ++ p.StateFile ++ "\"\n".toList else [])
  ++ (if p.UseRuleset then "\truleset=\"".toList ++ p.RulesetName ++ "\"\n".toList else [])
  ++ ")\n\n".toList

/-- The filter-expression construction of RenderConfig: the buffer writes
guarded by the `wrote` flag, returned together with the final flag. -/
def filterParts (p : ConfigParams) : Str × Bool :=
  let s0 : Str := []
  let r1 := if p.FilterByTag
    then (s0 ++ "$syslogtag contains '".toList ++ escapeQuotes p.Tag ++ "')".toList, true)
    else (s0, false)
  let r2 := if p.FilterContains ≠ []
    then (r1.1 ++ (if r1.2 then " and ".toList else [])
          ++ "($msg contains '".toList ++ escapeQuotes p.FilterContains ++ "')".toList, true)
    else r1
  let r3 := if p.FilterRegex ≠ []
    then (r2.1 ++ (if r2.2 then " or ".toList else [])
          ++ "re_match($msg, \"".toList ++ escapeQuotes p.FilterRegex ++ "\")".toList, true)
    else r2
  r3

def renderAction (p : ConfigParams) : Str :=
  if p.ProgramArgs ≠ [] then
    "        action(type=\"omprog\" binary=\"".toList ++ escapeQuotes p.ProgramPath
    ++ [' '] ++ escapeQuotes p.ProgramArgs ++ "\")\n".toList
  else
    "        action(type=\"omprog\" binary=\"".toList ++ escapeQuotes p.ProgramPath
    ++ "\")\n".toList

def renderHead (p : ConfigParams) : Str :=
  renderModules p ++ renderInput p
  ++ (if p.UseRuleset
      then "ruleset(name=\"".toList ++ p.RulesetName ++ "\") \x7b\n    if (".toList
      else "if (".toList)

def renderTail (p : ConfigParams) : Str :=
  " then \x7b\n".toList ++ renderAction p
  ++ (if p.UseRuleset then "    \x7d\n\x7d\n".toList else "\x7d\n".toList)

/-- RenderConfig from src/internal/rsyslog/config.go. -/
def RenderConfig (p : ConfigParams) : Except Str Str :=
  match Validate p with
  | .error e => .error e
  | .ok _ =>
    let fp := filterParts p
    if fp.2 = false then .error "no filter expression constructed".toList
    else .ok (renderHead p ++ fp.1 ++ renderTail p)

/-- The filter clause as the spec states it: tag-match AND substring-match,
then OR'd with pattern-match, omitting any predicate not supplied. -/
def specFilterClause (p : ConfigParams) : Str :=
  let tagP := if p.FilterByTag
    then some ("$syslogtag contains '".toList ++ escapeQuotes p.Tag ++ "')".toList) else none
  let subP := if p.FilterContains ≠ []
    then some ("($msg contains '".toList ++ escapeQuotes p.FilterContains ++ "')".toList)
    else none
  let regP := if p.FilterRegex ≠ []
    then some ("re_match($msg, \"".toList ++ escapeQuotes p.FilterRegex ++ "\")".toList)
    else none
  let andP : Option Str :=
    match tagP, subP with
    | some a, some b => some (a ++ " and ".toList ++ b)
    | some a, none => some a
    | none, some b => some b
    | none, none => none
  match andP, regP with
  | some a, some r => a ++ " or ".toList ++ r
  | some a, none => a
  | none, some r => r
  | none, none => []

end RsOmprog

/-!
### Service reload fallback chains
reloadRsyslog from src/internal/rsyslog/config.go and runCompose from
src/unnamed/part_006.  External tools are modelled by an environment:
presence flags plus each invocation's outcome (`none` = exit 0,
`some msg` = non-zero exit with combined-output message msg).
-/

structure SysEnv where
  hasSystemctl : Bool
  sysReloadErr : Option Str
  sysRestartErr : Option Str
  hasService : Bool
  svcReloadErr : Option Str
  svcRestartErr : Option Str

/-- reloadRsyslog from src/internal/rsyslog/config.go. -/
def reloadRsyslog (e : SysEnv) : Option Str :=
  if e.hasSystemctl then
    match e.sysReloadErr with
    | none => none
    | some _ =>
      match e.sysRestartErr with
      | none => none
      | some msg =>
        some ("failed to reload or restart rsyslog via systemctl: ".toList ++ msg)
  else if e.hasService then
    match e.svcReloadErr with
    | none => none
    | some _ =>
      match e.svcRestartErr with
      | none => none
      | some msg =>
        some ("failed to reload or restart rsyslog via service: ".toList ++ msg)
  else
    some "could not find a method to reload rsyslog (systemctl or service not available)".toList

structure ComposeEnv where
  hasDocker : Bool
  dockerErr : Option Str
  hasDockerCompose : Bool
  dockerComposeErr : Option Str

/-- strings.Join(errs, "; "). -/
def joinSemi : List Str → Str
  | [] => []
  | [x] => x
  | x :: xs => x ++ "; ".toList ++ joinSemi xs

/-- runCompose from src/unnamed/part_006, after path resolution: the
docker-then-docker-compose attempt sequence with error collection. -/
def runCompose (e : ComposeEnv) : Option Str :=
  let step1 : Option (List Str) :=
    if e.hasDocker then
      match e.dockerErr with
      | none => none
      | some msg => some [msg]
    else some []
  match step1 with
  | none => none
  | some errs1 =>
    let step2 : Option (List Str) :=
      if e.hasDockerCompose then
        match e.dockerComposeErr with
        | none => none
        | some msg => some (errs1 ++ [msg])
      else some errs1
    match step2 with
    | none => none
    | some errs2 =>
      if errs2 = [] then
        some "docker compose command not found (tried docker compose and docker-compose)".toList
      else some (joinSemi errs2)

/-!
### Concrete content segments for the Apache round-trip analysis
The file "ServerName localhost\n" after Install holds, in order: the
original line, a blank separator, the start marker, the CustomLog line
with the payload in the middle, and the end marker.  c1Pre is everything
before the payload, c1Suf everything after it, and c1Mid is c1Pre without
the 22 characters preceding the start marker.
-/

def c1Pre : Str := "ServerName localhost\n\n# BEGIN NixPersist apache-log\nCustomLog \"|".toList

def c1Mid : Str := "# BEGIN NixPersist apache-log\nCustomLog \"|".toList

def c1Suf : Str := "\" error\n# END NixPersist apache-log\n".toList

/- ### Basic facts about the string helpers -/

theorem splitNl_ne_nil (s : Str) : splitNl s ≠ [] := by
  induction s with
  | nil => simp [splitNl]
  | cons c r ih =>
    simp only [splitNl]
    split
    · simp
    · match h : splitNl r with
      | [] => simp
      | l :: ls => simp

theorem splitNl_no_nl (s : Str) (h : '\n' ∉ s) : splitNl s = [s] := by
  induction s with
  | nil => rfl
  | cons c r ih =>
    simp only [List.mem_cons, not_or] at h
    simp only [splitNl, if_neg (Ne.symm h.1), ih h.2]

theorem splitNl_append_cons (l t : Str) (h : '\n' ∉ l) :
    splitNl (l ++ '\n' :: t) = l :: splitNl t := by
  induction l with
  | nil => simp [splitNl]
  | cons c r ih =>
    simp only [List.mem_cons, not_or] at h
    have ih' := ih h.2
    simp only [List.cons_append, splitNl, if_neg (Ne.symm h.1), List.append_eq] at ih' ⊢
    rw [ih']

theorem splitNl_joinNl (ls : List Str) (hne : ls ≠ [])
    (hnl : ∀ l ∈ ls, '\n' ∉ l) : splitNl (joinNl ls) = ls := by
  induction ls with
  | nil => exact absurd rfl hne
  | cons l rest ih =>
    cases rest with
    | nil =>
      show splitNl (joinNl [l]) = [l]
      rw [show joinNl [l] = l from rfl]
      exact splitNl_no_nl l (hnl l (by simp))
    | cons l' rest' =>
      rw [show joinNl (l :: l' :: rest') = l ++ '\n' :: joinNl (l' :: rest') from rfl]
      rw [splitNl_append_cons l _ (hnl l (by simp))]
      rw [ih (by simp) (fun x hx => hnl x (List.mem_cons_of_mem _ hx))]

theorem indexOfSub_eq_some_iff {s n : Str} {q : Nat} :
    indexOfSub s n = some q ↔ (n <+: s.drop q) ∧ ∀ p, p < q → ¬ n <+: s.drop p := by
  induction s generalizing q with
  | nil =>
    by_cases hn : n = []
    · subst hn
      constructor
      · intro h
        have hq : q = 0 := by simp [indexOfSub] at h; omega
        subst hq
        exact ⟨List.nil_prefix, by omega⟩
      · rintro ⟨-, h2⟩
        have hq : q = 0 := by
          by_contra hq
          exact h2 0 (Nat.pos_of_ne_zero hq) List.nil_prefix
        subst hq
        rfl
    · have hne : n.isEmpty = false := by
        cases n with
        | nil => exact absurd rfl hn
        | cons a b => rfl
      constructor
      · intro h
        simp [indexOfSub, hne] at h
      · rintro ⟨h1, -⟩
        rw [List.drop_nil] at h1
        exact absurd (List.prefix_nil.mp h1) hn
  | cons c rest ih =>
    by_cases hp : n.isPrefixOf (c :: rest) = true
    · have hpre : n <+: c :: rest := List.isPrefixOf_iff_prefix.mp hp
      constructor
      · intro h
        have hq : q = 0 := by simp [indexOfSub, hp] at h; omega
        subst hq
        exact ⟨by simpa using hpre, by omega⟩
      · rintro ⟨h1, h2⟩
        have hq : q = 0 := by
          by_contra hq
          exact h2 0 (Nat.pos_of_ne_zero hq) (by simpa using hpre)
        subst hq
        simp [indexOfSub, hp]
    · have hnpre : ¬ n <+: c :: rest := fun hh => hp (List.isPrefixOf_iff_prefix.mpr hh)
      have hunf : indexOfSub (c :: rest) n = (indexOfSub rest n).map (· + 1) := by
        simp [indexOfSub, hp]
      rw [hunf]
      constructor
      · intro h
        obtain ⟨q', hq', hq⟩ := Option.map_eq_some'.mp h
        obtain ⟨h1, h2⟩ := ih.mp hq'
        subst hq
        refine ⟨by simpa using h1, ?_⟩
        intro p hplt
        cases p with
        | zero => intro hcon; exact hnpre (by simpa using hcon)
        | succ k =>
          intro hcon
          exact h2 k (by omega) (by simpa using hcon)
      · rintro ⟨h1, h2⟩
        cases q with
        | zero => exact absurd (by simpa using h1) hnpre
        | succ k =>
          rw [Option.map_eq_some']
          refine ⟨k, ih.mpr ⟨by simpa using h1, ?_⟩, rfl⟩
          intro p hplt
          intro hcon
          exact h2 (p + 1) (by omega) (by simpa using hcon)

theorem indexOfSub_eq_none_iff {s n : Str} :
    indexOfSub s n = none ↔ ∀ p, ¬ n <+: s.drop p := by
  induction s with
  | nil =>
    by_cases hn : n = []
    · subst hn
      constructor
      · intro h
        simp [indexOfSub] at h
      · intro h
        exact absurd List.nil_prefix (h 0)
    · have hne : n.isEmpty = false := by
        cases n with
        | nil => exact absurd rfl hn
        | cons a b => rfl
      constructor
      · intro _ p h
        rw [List.drop_nil] at h
        exact absurd (List.prefix_nil.mp h) hn
      · intro _
        simp [indexOfSub, hne]
  | cons c rest ih =>
    by_cases hp : n.isPrefixOf (c :: rest) = true
    · have hpre : n <+: c :: rest := List.isPrefixOf_iff_prefix.mp hp
      constructor
      · intro h
        simp [indexOfSub, hp] at h
      · intro h
        exact absurd (by simpa using hpre) (h 0)
    · have hnpre : ¬ n <+: c :: rest := fun hh => hp (List.isPrefixOf_iff_prefix.mpr hh)
      have hunf : indexOfSub (c :: rest) n = (indexOfSub rest n).map (· + 1) := by
        simp [indexOfSub, hp]
      rw [hunf, Option.map_eq_none', ih]
      constructor
      · intro h p
        cases p with
        | zero => simpa using hnpre
        | succ k => simpa using h k
      · intro h p
        simpa using h (p + 1)

theorem containsSub_eq_true_iff {s n : Str} :
    containsSub s n = true ↔ ∃ p, n <+: s.drop p := by
  unfold containsSub
  cases h : indexOfSub s n with
  | none =>
    have hn := indexOfSub_eq_none_iff.mp h
    simp only [Option.isSome_none, Bool.false_eq_true, false_iff]
    rintro ⟨p, hp⟩
    exact hn p hp
  | some q =>
    simp only [Option.isSome_some, true_iff]
    exact ⟨q, (indexOfSub_eq_some_iff.mp h).1⟩

theorem containsSub_eq_false_iff {s n : Str} :
    containsSub s n = false ↔ ∀ p, ¬ n <+: s.drop p := by
  rw [← indexOfSub_eq_none_iff]
  unfold containsSub
  cases indexOfSub s n <;> simp

theorem prefix_drop_getElem {s n : Str} {p j : Nat} (h : n <+: s.drop p)
    (hj : j < n.length) : s[p + j]? = n[j]? := by
  obtain ⟨t, ht⟩ := h
  have h1 : (s.drop p)[j]? = s[p + j]? := List.getElem?_drop s p j
  rw [← h1, ← ht, List.getElem?_append_left hj]

theorem head_of_match {s n : Str} {p : Nat} (hn : n ≠ []) (h : n <+: s.drop p) :
    s[p]? = n[0]? := by
  have hl : 0 < n.length := List.length_pos.mpr hn
  simpa using prefix_drop_getElem h hl

theorem prefix_of_prefix_append {n x y : Str} (h : n <+: x ++ y)
    (hl : n.length ≤ x.length) : n <+: x := by
  rw [List.prefix_iff_eq_take] at h ⊢
  rwa [List.take_append_of_le_length hl] at h

theorem getElem?_ne_of_not_mem {l : Str} {c : Char} {i : Nat} (h : c ∉ l) :
    l[i]? ≠ some c := by
  intro hc
  obtain ⟨hlt, hv⟩ := List.getElem?_eq_some.mp hc
  exact h (hv ▸ l.getElem_mem hlt)

theorem dropWhile_head?_not {p : Char → Bool} {l : Str} {c : Char}
    (h : (l.dropWhile p).head? = some c) : p c = false := by
  induction l with
  | nil => simp [List.dropWhile] at h
  | cons a l ih =>
    rw [List.dropWhile_cons] at h
    split at h
    · exact ih h
    · next hpa =>
      rw [List.head?_cons, Option.some.injEq] at h
      subst h
      exact Bool.eq_false_iff.mpr hpa

theorem dropWhile_getLast?_of_ne_nil {p : Char → Bool} {l : Str}
    (h : l.dropWhile p ≠ []) : (l.dropWhile p).getLast? = l.getLast? := by
  induction l with
  | nil => simp [List.dropWhile] at h
  | cons a l ih =>
    rw [List.dropWhile_cons] at h ⊢
    split at h
    · next hpa =>
      rw [if_pos hpa]
      rw [ih h]
      have hl : l ≠ [] := by
        intro he
        rw [he] at h
        simp [List.dropWhile] at h
      rw [show a :: l = [a] ++ l from rfl, List.getLast?_append]
      obtain ⟨c, hc⟩ := Option.isSome_iff_exists.mp (List.getLast?_isSome.mpr hl)
      simp [hc]
    · next hpa => rw [if_neg hpa]

theorem dropWhile_eq_self_of_head {p : Char → Bool} {l : Str}
    (h : ∀ c, l.head? = some c → p c = false) : l.dropWhile p = l := by
  cases l with
  | nil => rfl
  | cons a l =>
    rw [List.dropWhile_cons, h a rfl]
    simp

theorem trimSpace_eq_self {s : Str}
    (h1 : ∀ c, s.head? = some c → goSpace c = false)
    (h2 : ∀ c, s.getLast? = some c → goSpace c = false) : trimSpace s = s := by
  unfold trimSpace
  rw [dropWhile_eq_self_of_head h1]
  rw [dropWhile_eq_self_of_head (fun c hc => h2 c (by rwa [List.head?_reverse] at hc))]
  exact List.reverse_reverse s

theorem trimSpace_head_not {s : Str} {c : Char} (h : (trimSpace s).head? = some c) :
    goSpace c = false := by
  unfold trimSpace at h
  rw [List.head?_reverse] at h
  by_cases hw : List.dropWhile goSpace (List.dropWhile goSpace s).reverse = []
  · rw [hw] at h
    simp at h
  · rw [dropWhile_getLast?_of_ne_nil hw, List.getLast?_reverse] at h
    exact dropWhile_head?_not h

theorem trimSpace_getLast_not {s : Str} {c : Char} (h : (trimSpace s).getLast? = some c) :
    goSpace c = false := by
  unfold trimSpace at h
  rw [List.getLast?_reverse] at h
  exact dropWhile_head?_not h

theorem trimSpace_idem (s : Str) : trimSpace (trimSpace s) = trimSpace s :=
  trimSpace_eq_self (fun _ hc => trimSpace_head_not hc)
    (fun _ hc => trimSpace_getLast_not hc)

theorem trimSpace_cons_of_space {c : Char} {s : Str} (h : goSpace c = true) :
    trimSpace (c :: s) = trimSpace s := by
  unfold trimSpace
  rw [List.dropWhile_cons, h]
  simp

theorem getLast?_append_of_ne_nil {x y : Str} (h : y ≠ []) :
    (x ++ y).getLast? = y.getLast? := by
  rw [List.getLast?_append]
  obtain ⟨c, hc⟩ := Option.isSome_iff_exists.mp (List.getLast?_isSome.mpr h)
  simp [hc]

theorem length_dropWhile_le (p : Char → Bool) (l : Str) :
    (l.dropWhile p).length ≤ l.length := by
  induction l with
  | nil => simp [List.dropWhile]
  | cons a l ih =>
    rw [List.dropWhile_cons]
    split
    · exact Nat.le_trans ih (by simp)
    · exact Nat.le_refl _

/- ### Claim theorems -/

/-- Claim C3, counterexample: the claim says RenderShellConfig with Trigger
"hacker" and Payload "/path/to/payload" returns exactly the single directive
line with no surrounding marker lines; the shell.go variant of
RenderShellConfig (src/internal/rsyslog/shell.go, one of the two cited
sources) instead wraps that line between marker lines, so its result is not
the claimed single line. -/
theorem C3_counterexample :
    ShellBlock.RenderShellConfig ⟨"hacker".toList, "/path/to/payload".toList⟩ ≠
      Except.ok ":msg, contains, \"hacker\" ^/path/to/payload\n".toList := by
  intro h
  rw [show ShellBlock.RenderShellConfig ⟨"hacker".toList, "/path/to/payload".toList⟩ =
      Except.ok ("# BEGIN NixPersist shell execute\n:msg, contains, \"hacker\" ^/path/to/payload\n# END NixPersist shell execute\n".toList)
    from rfl] at h
  exact absurd (Except.ok.inj h) (by decide)

/-- Claim C3, amended: the exact-line variant of RenderShellConfig
(src/unnamed/part_000) with Trigger "hacker" and Payload "/path/to/payload"
returns exactly the single line followed by one newline and nothing else,
while the marker-block variant (src/internal/rsyslog/shell.go) returns the
same directive line wrapped between its start and end marker lines. -/
theorem C3_render_shell :
    ShellLine.RenderShellConfig ⟨"hacker".toList, "/path/to/payload".toList⟩ =
      Except.ok ":msg, contains, \"hacker\" ^/path/to/payload\n".toList ∧
    ShellBlock.RenderShellConfig ⟨"hacker".toList, "/path/to/payload".toList⟩ =
      Except.ok ("# BEGIN NixPersist shell execute\n:msg, contains, \"hacker\" ^/path/to/payload\n# END NixPersist shell execute\n".toList) :=
  ⟨rfl, rfl⟩

/-- Claim C4: evaluation of escapeQuotes at the failing inputs.  The claim
(and the function's own comment) require a lone backslash to become two
backslashes and a double quote to become backslash-quote; the code instead
leaves a lone backslash unchanged, turns a PAIR of backslashes into four,
and turns a double quote into backslash-backslash-quote, because the Go
raw-string patterns each denote two literal characters. -/
theorem C4_escapeQuotes_behavior :
    RsOmprog.escapeQuotes ['\\'] = ['\\'] ∧
    RsOmprog.escapeQuotes ['"'] = ['\\', '\\', '"'] ∧
    RsOmprog.escapeQuotes ['\\', '\\'] = ['\\', '\\', '\\', '\\'] :=
  ⟨rfl, rfl, rfl⟩

/-- Claim C6, counterexample: for the rsyslog shell block mechanism, a file
holding the start marker with no end marker is reported with exactly the
same "not found" outcome as a file with no markers at all - removeShellBlock
returns found = false and RemoveShell returns the ordinary not-found error,
not a distinct "markers inconsistent" error. -/
theorem C6_counterexample :
    ShellBlock.removeShellBlock "# BEGIN NixPersist shell execute\n".toList =
      ("# BEGIN NixPersist shell execute\n".toList, false) ∧
    ShellBlock.RemoveShell true (some "# BEGIN NixPersist shell execute\n".toList) none =
      (Except.error "rsyslog shell snippet not found".toList,
       some "# BEGIN NixPersist shell execute\n".toList) ∧
    ShellBlock.RemoveShell true (some "nothing here".toList) none =
      (Except.error "rsyslog shell snippet not found".toList,
       some "nothing here".toList) :=
  ⟨rfl, rfl, rfl⟩

/-- Claim C7, counterexample: InstallShell targets /etc/rsyslog.conf, an
externally-owned system configuration file, yet a missing target file is
treated as empty content and the file is created by the O_CREATE open:
installing into a non-existent file succeeds and creates it. -/
theorem C7_counterexample :
    ShellBlock.InstallShell true
      "# BEGIN NixPersist shell execute\n:msg, contains, \"hacker\" ^/path/to/payload\n# END NixPersist shell execute\n".toList
      none none =
    (Except.ok (),
     some "# BEGIN NixPersist shell execute\n:msg, contains, \"hacker\" ^/path/to/payload\n# END NixPersist shell execute\n".toList) :=
  rfl

set_option maxRecDepth 40000 in
/-- Claim C1, counterexample: the round trip is claimed for every valid
payload, but a valid payload that itself contains the end-marker text makes
Remove cut at the occurrence inside the CustomLog line, leaving debris: for
payload "/a# END NixPersist apache-log" the file
"ServerName localhost\n" is not restored. -/
theorem C1_counterexample :
    Apachelog.Install ⟨"/a# END NixPersist apache-log".toList⟩
        (some "ServerName localhost\n".toList) false none =
      (Except.ok (), some "ServerName localhost\n\n# BEGIN NixPersist apache-log\nCustomLog \"|/a# END NixPersist apache-log\" error\n# END NixPersist apache-log\n".toList) ∧
    Apachelog.Remove
        (some "ServerName localhost\n\n# BEGIN NixPersist apache-log\nCustomLog \"|/a# END NixPersist apache-log\" error\n# END NixPersist apache-log\n".toList)
        false none =
      (Except.ok (), some "ServerName localhost\n\" error\n# END NixPersist apache-log\n".toList) ∧
    "ServerName localhost\n\" error\n# END NixPersist apache-log\n".toList ≠
      "ServerName localhost\n".toList :=
  ⟨rfl, rfl, by decide⟩

/-- Claim C2: a second Apache Install with the same params fails with the
idempotency-conflict error and leaves the file bytes unchanged (the
duplicate check precedes the write), and Remove on a file that never had
the fragment installed fails with the not-found error and leaves the file
bytes unchanged. -/
theorem C2_idempotency_conflicts (p : Apachelog.ConfigParams) (c c' : Str)
    (r1 r2 r3 : Bool) (e1 e2 e3 : Option Str) :
    (Apachelog.Install p (some c) r1 e1 = (.ok (), some c') →
      Apachelog.Install p (some c') r2 e2 = (.error Apachelog.errAlready, some c')) ∧
    (containsSub c Apachelog.startMarker = false →
      Apachelog.Remove (some c) r3 e3 = (.error Apachelog.errNotFound, some c)) := by
  constructor
  · intro h
    cases hr : Apachelog.RenderConfig p with
    | error e =>
      simp only [Apachelog.Install, hr] at h
      simp at h
    | ok cfg =>
      simp only [Apachelog.Install, hr] at h
      by_cases hc : containsSub c Apachelog.startMarker = true
      · rw [if_pos hc] at h
        simp at h
      · rw [if_neg hc] at h
        have hcc : c' = Apachelog.insertContent c cfg := by
          cases r1 with
          | false => simpa using (congrArg Prod.snd h).symm
          | true =>
            cases e1 with
            | none => simpa using (congrArg Prod.snd h).symm
            | some e => simp at h
        obtain ⟨R, hcfg⟩ : ∃ R, cfg = Apachelog.startMarker ++ R := by
          cases hv : Apachelog.Validate p with
          | error e2 =>
            simp only [Apachelog.RenderConfig, hv] at hr
            simp at hr
          | ok u =>
            simp only [Apachelog.RenderConfig, hv] at hr
            exact ⟨_, (Except.ok.inj hr).symm⟩
        have hcont : containsSub c' Apachelog.startMarker = true := by
          rw [containsSub_eq_true_iff]
          obtain ⟨b, hb⟩ : ∃ b, Apachelog.insertContent c cfg = b ++ cfg :=
            ⟨_, rfl⟩
          refine ⟨b.length, ?_⟩
          rw [hcc, hb, hcfg, List.drop_left]
          exact List.prefix_append _ _
        simp only [Apachelog.Install, hr]
        rw [if_pos hcont]
  · intro hnc
    have hidx : indexOfSub c Apachelog.startMarker = none := by
      rw [indexOfSub_eq_none_iff]
      exact containsSub_eq_false_iff.mp hnc
    simp only [Apachelog.Remove, hidx]

/-- Claim C2, witness: concrete run on a file holding only
"ServerName localhost\n". -/
theorem C2_witness :
    Apachelog.Install ⟨"/usr/bin/apachesh".toList⟩
        (some "ServerName localhost\n".toList) false none =
      (.ok (), some "ServerName localhost\n\n# BEGIN NixPersist apache-log\nCustomLog \"|/usr/bin/apachesh\" error\n# END NixPersist apache-log\n".toList) ∧
    Apachelog.Install ⟨"/usr/bin/apachesh".toList⟩
        (some "ServerName localhost\n\n# BEGIN NixPersist apache-log\nCustomLog \"|/usr/bin/apachesh\" error\n# END NixPersist apache-log\n".toList)
        false none =
      (.error Apachelog.errAlready,
       some "ServerName localhost\n\n# BEGIN NixPersist apache-log\nCustomLog \"|/usr/bin/apachesh\" error\n# END NixPersist apache-log\n".toList) ∧
    Apachelog.Remove (some "ServerName localhost\n".toList) false none =
      (.error Apachelog.errNotFound, some "ServerName localhost\n".toList) :=
  ⟨rfl,
   (C2_idempotency_conflicts ⟨"/usr/bin/apachesh".toList⟩
      "ServerName localhost\n".toList _ false false false none none none).1 rfl,
   (C2_idempotency_conflicts ⟨"/usr/bin/apachesh".toList⟩
      "ServerName localhost\n".toList [] false false false none none none).2 (by decide)⟩

/-- Claim C7, amended: the Apache mechanism refuses to operate on a missing
externally-owned configuration file (Install and Remove both fail and leave
no file behind), but the rsyslog shell mechanism - whose target is the
externally-owned /etc/rsyslog.conf - treats a missing target as empty
content and creates the file (after MkdirAll on its parent); tool-owned
drop-in paths are the only intended place for such auto-creation. -/
theorem C7_missing_target (p : Apachelog.ConfigParams) (r1 r2 : Bool)
    (e1 e2 : Option Str) (cfg : Str) :
    (Apachelog.Validate p = .ok () →
      Apachelog.Install p none r1 e1 = (.error Apachelog.errMissing, none)) ∧
    Apachelog.Remove none r2 e2 = (.error Apachelog.errMissing, none) ∧
    (cfg ≠ [] → ShellBlock.InstallShell true cfg none none = (.ok (), some cfg)) := by
  refine ⟨?_, rfl, ?_⟩
  · intro hv
    simp only [Apachelog.Install, Apachelog.RenderConfig, hv]
  · intro hcfg
    have h0 : containsSub ([] : Str) ShellBlock.shellMarkerStart = false := rfl
    simp [ShellBlock.InstallShell, hcfg, h0]

/-- Claim C7, witness: the Apache install and remove on a missing file with
a concrete valid payload, and the rsyslog shell install on a missing file
with a concrete rendered snippet. -/
theorem C7_missing_target_witness :
    Apachelog.Install ⟨"/usr/bin/apachesh".toList⟩ none false none =
      (.error Apachelog.errMissing, none) ∧
    Apachelog.Remove none false none = (.error Apachelog.errMissing, none) ∧
    ShellBlock.InstallShell true ":msg, contains, \"h\" ^/p\n".toList none none =
      (.ok (), some ":msg, contains, \"h\" ^/p\n".toList) :=
  ⟨(C7_missing_target ⟨"/usr/bin/apachesh".toList⟩ false false none none
      ":msg, contains, \"h\" ^/p\n".toList).1 rfl,
   (C7_missing_target ⟨"/usr/bin/apachesh".toList⟩ false false none none
      ":msg, contains, \"h\" ^/p\n".toList).2.1,
   (C7_missing_target ⟨"/usr/bin/apachesh".toList⟩ false false none none
      ":msg, contains, \"h\" ^/p\n".toList).2.2 (by decide)⟩

/-- Claim C8: reloadRsyslog tries systemctl reload first, falls back to
systemctl restart, uses the service wrapper only when systemctl is absent
(reload then restart), and errors when neither tool exists; runCompose
tries docker compose then docker-compose; any single success returns nil
(none), and when both compose attempts fail the error joins both tools'
failure messages. -/
theorem C8_reload_fallback_chain (e : SysEnv) (d : ComposeEnv) :
    (e.hasSystemctl = true → e.sysReloadErr = none → reloadRsyslog e = none) ∧
    (e.hasSystemctl = true → e.sysRestartErr = none → reloadRsyslog e = none) ∧
    (∀ m1 m2, e.hasSystemctl = true → e.sysReloadErr = some m1 →
      e.sysRestartErr = some m2 →
      reloadRsyslog e =
        some ("failed to reload or restart rsyslog via systemctl: ".toList ++ m2)) ∧
    (e.hasSystemctl = false → e.hasService = true → e.svcReloadErr = none →
      reloadRsyslog e = none) ∧
    (e.hasSystemctl = false → e.hasService = true → e.svcRestartErr = none →
      reloadRsyslog e = none) ∧
    (∀ m1 m2, e.hasSystemctl = false → e.hasService = true → e.svcReloadErr = some m1 →
      e.svcRestartErr = some m2 →
      reloadRsyslog e =
        some ("failed to reload or restart rsyslog via service: ".toList ++ m2)) ∧
    (e.hasSystemctl = false → e.hasService = false →
      reloadRsyslog e =
        some "could not find a method to reload rsyslog (systemctl or service not available)".toList) ∧
    (d.hasDocker = true → d.dockerErr = none → runCompose d = none) ∧
    (d.hasDocker = false → d.hasDockerCompose = true → d.dockerComposeErr = none →
      runCompose d = none) ∧
    (∀ m1, d.hasDocker = true → d.dockerErr = some m1 → d.hasDockerCompose = true →
      d.dockerComposeErr = none → runCompose d = none) ∧
    (∀ m1 m2, d.hasDocker = true → d.dockerErr = some m1 → d.hasDockerCompose = true →
      d.dockerComposeErr = some m2 → runCompose d = some (m1 ++ "; ".toList ++ m2)) ∧
    (d.hasDocker = false → d.hasDockerCompose = false →
      runCompose d =
        some "docker compose command not found (tried docker compose and docker-compose)".toList) := by
  refine ⟨?_, ?_, ?_, ?_, ?_, ?_, ?_, ?_, ?_, ?_, ?_, ?_⟩
  · intro h1 h2
    simp [reloadRsyslog, h1, h2]
  · intro h1 h2
    cases h3 : e.sysReloadErr <;> simp [reloadRsyslog, h1, h2, h3]
  · intro m1 m2 h1 h2 h3
    simp [reloadRsyslog, h1, h2, h3]
  · intro h1 h2 h3
    simp [reloadRsyslog, h1, h2, h3]
  · intro h1 h2 h3
    cases h4 : e.svcReloadErr <;> simp [reloadRsyslog, h1, h2, h3, h4]
  · intro m1 m2 h1 h2 h3 h4
    simp [reloadRsyslog, h1, h2, h3, h4]
  · intro h1 h2
    simp [reloadRsyslog, h1, h2]
  · intro h1 h2
    simp [runCompose, h1, h2]
  · intro h1 h2 h3
    simp [runCompose, h1, h2, h3]
  · intro m1 h1 h2 h3 h4
    simp [runCompose, h1, h2, h3, h4]
  · intro m1 m2 h1 h2 h3 h4
    simp [runCompose, h1, h2, h3, h4, joinSemi]
  · intro h1 h2
    simp [runCompose, h1, h2]

/-- Claim C8, witness: a host with systemctl present whose reload and
restart both fail, and a host with both compose commands failing. -/
theorem C8_reload_fallback_chain_witness :
    reloadRsyslog ⟨true, some "r1".toList, some "r2".toList, false, none, none⟩ =
      some ("failed to reload or restart rsyslog via systemctl: ".toList ++ "r2".toList) ∧
    reloadRsyslog ⟨true, none, none, false, none, none⟩ = none ∧
    runCompose ⟨true, some "d1".toList, true, some "d2".toList⟩ =
      some ("d1".toList ++ "; ".toList ++ "d2".toList) ∧
    runCompose ⟨true, some "d1".toList, true, none⟩ = none :=
  ⟨(C8_reload_fallback_chain ⟨true, some "r1".toList, some "r2".toList, false, none, none⟩
      ⟨true, some "d1".toList, true, some "d2".toList⟩).2.2.1 "r1".toList "r2".toList rfl rfl rfl,
   (C8_reload_fallback_chain ⟨true, none, none, false, none, none⟩
      ⟨true, some "d1".toList, true, some "d2".toList⟩).1 rfl rfl,
   (C8_reload_fallback_chain ⟨true, none, none, false, none, none⟩
      ⟨true, some "d1".toList, true, some "d2".toList⟩).2.2.2.2.2.2.2.2.2.2.1
      "d1".toList "d2".toList rfl rfl rfl rfl,
   (C8_reload_fallback_chain ⟨true, none, none, false, none, none⟩
      ⟨true, some "d1".toList, true, none⟩).2.2.2.2.2.2.2.2.2.1
      "d1".toList rfl rfl rfl rfl⟩

theorem insertContent_length (c cfg : Str) :
    c.length + cfg.length ≤ (Apachelog.insertContent c cfg).length := by
  by_cases h1 : 0 < c.length ∧ hasSuffixB c ['\n'] = false <;>
    simp [Apachelog.insertContent, h1, List.length_append] <;>
    first
      | omega
      | (split_ifs <;> simp [List.length_append] <;> omega)

theorem trimRightNlCr_length_le (s : Str) : (trimRightNlCr s).length ≤ s.length := by
  unfold trimRightNlCr
  rw [List.length_reverse]
  calc (List.dropWhile _ s.reverse).length ≤ s.reverse.length := length_dropWhile_le _ _
    _ = s.length := List.length_reverse s

theorem cutStartOf_le (content : Str) (start : Nat) :
    ShellBlock.cutStartOf content start ≤ start := by
  simp only [ShellBlock.cutStartOf]
  split_ifs <;> omega

theorem removeShellBlock_found_length {d : Str}
    (h : (ShellBlock.removeShellBlock d).2 = true) :
    (ShellBlock.removeShellBlock d).1.length < d.length := by
  cases h1 : indexOfSub d ShellBlock.shellMarkerStart with
  | none =>
    simp only [ShellBlock.removeShellBlock, h1] at h
    exact absurd h Bool.false_ne_true
  | some start =>
    cases h2 : indexOfSub (d.drop start) ShellBlock.shellMarkerEnd with
    | none =>
      simp only [ShellBlock.removeShellBlock, h1, h2] at h
      exact absurd h Bool.false_ne_true
    | some e0 =>
      have hM2 : ShellBlock.shellMarkerEnd.length = 30 := rfl
      simp only [ShellBlock.removeShellBlock, h1, h2, hM2]
      have hpre := (indexOfSub_eq_some_iff.mp h2).1.length_le
      rw [hM2, List.length_drop, List.length_drop] at hpre
      have h3 : (List.take (ShellBlock.cutStartOf d start) d).length ≤ start := by
        rw [List.length_take]
        exact le_trans (min_le_left _ _) (cutStartOf_le d start)
      generalize (List.takeWhile (fun c => c == '\r' || c == '\n')
          (List.drop (e0 + start + 30) d)).length = cnt
      have h4 : (List.drop (e0 + start + 30 + cnt) d).length
          = d.length - (e0 + start + 30 + cnt) := List.length_drop _ _
      have h5 := trimRightNlCr_length_le
        (List.take (ShellBlock.cutStartOf d start) d ++
         List.drop (e0 + start + 30 + cnt) d)
      rw [List.length_append] at h5
      split_ifs with hif
      · rw [List.length_append, List.length_singleton]
        omega
      · omega

theorem renderConfig_ok_shape {p : Apachelog.ConfigParams} {cfg : Str}
    (hr : Apachelog.RenderConfig p = .ok cfg) :
    ∃ R, cfg = Apachelog.startMarker ++ R := by
  cases hv : Apachelog.Validate p with
  | error e2 =>
    simp only [Apachelog.RenderConfig, hv] at hr
    simp at hr
  | ok u =>
    simp only [Apachelog.RenderConfig, hv] at hr
    exact ⟨_, (Except.ok.inj hr).symm⟩

/-- Claim C9: when the post-write reload/restart fails, Install and Remove
return the reload error but the target file keeps the freshly mutated
content, not the pre-call content - shown for the Apache Install with a
failing systemctl restart and for the rsyslog shell RemoveShell with a
failing reload. -/
theorem C9_no_rollback (p : Apachelog.ConfigParams) (c d : Str) (cfg : Str) (e : Str) :
    (Apachelog.RenderConfig p = .ok cfg →
      containsSub c Apachelog.startMarker = false →
      Apachelog.Install p (some c) true (some e) =
        (.error e, some (Apachelog.insertContent c cfg)) ∧
      Apachelog.insertContent c cfg ≠ c) ∧
    ((ShellBlock.removeShellBlock d).2 = true →
      ShellBlock.RemoveShell true (some d) (some e) =
        (.error ("reload rsyslog after removal: ".toList ++ e),
         some (ShellBlock.removeShellBlock d).1) ∧
      (ShellBlock.removeShellBlock d).1 ≠ d) := by
  constructor
  · intro hr hc
    constructor
    · simp only [Apachelog.Install, hr]
      simp [hc]
    · intro heq
      have hlen := insertContent_length c cfg
      obtain ⟨R, hcfg⟩ := renderConfig_ok_shape hr
      have hcfgne : cfg.length ≠ 0 := by
        rw [hcfg]
        simp [Apachelog.startMarker]
      have := congrArg List.length heq
      omega
  · intro hf
    constructor
    · simp [ShellBlock.RemoveShell, hf]
    · intro heq
      have hlt := removeShellBlock_found_length hf
      rw [heq] at hlt
      exact Nat.lt_irrefl _ hlt

/-- Claim C9, witness: a failing restart after the Apache install on
"ServerName localhost\n" and a failing reload after removing the shell
block from a file holding the snippet between two lines. -/
theorem C9_no_rollback_witness :
    (Apachelog.Install ⟨"/usr/bin/apachesh".toList⟩
        (some "ServerName localhost\n".toList) true (some "boom".toList) =
      (.error "boom".toList,
       some (Apachelog.insertContent "ServerName localhost\n".toList
         "# BEGIN NixPersist apache-log\nCustomLog \"|/usr/bin/apachesh\" error\n# END NixPersist apache-log\n".toList)) ∧
     Apachelog.insertContent "ServerName localhost\n".toList
         "# BEGIN NixPersist apache-log\nCustomLog \"|/usr/bin/apachesh\" error\n# END NixPersist apache-log\n".toList ≠
       "ServerName localhost\n".toList) ∧
    (ShellBlock.RemoveShell true
        (some "line1\n# BEGIN NixPersist shell execute\n:msg, contains, \"foo\" ^/bin/true\n# END NixPersist shell execute\nline2\n".toList)
        (some "boom".toList) =
      (.error ("reload rsyslog after removal: ".toList ++ "boom".toList),
       some (ShellBlock.removeShellBlock
         "line1\n# BEGIN NixPersist shell execute\n:msg, contains, \"foo\" ^/bin/true\n# END NixPersist shell execute\nline2\n".toList).1) ∧
     (ShellBlock.removeShellBlock
         "line1\n# BEGIN NixPersist shell execute\n:msg, contains, \"foo\" ^/bin/true\n# END NixPersist shell execute\nline2\n".toList).1 ≠
       "line1\n# BEGIN NixPersist shell execute\n:msg, contains, \"foo\" ^/bin/true\n# END NixPersist shell execute\nline2\n".toList) :=
  ⟨(C9_no_rollback ⟨"/usr/bin/apachesh".toList⟩ "ServerName localhost\n".toList []
      "# BEGIN NixPersist apache-log\nCustomLog \"|/usr/bin/apachesh\" error\n# END NixPersist apache-log\n".toList
      "boom".toList).1 rfl (by decide),
   (C9_no_rollback ⟨"/usr/bin/apachesh".toList⟩ []
      "line1\n# BEGIN NixPersist shell execute\n:msg, contains, \"foo\" ^/bin/true\n# END NixPersist shell execute\nline2\n".toList
      [] "boom".toList).2 rfl⟩

/-- Claim C6, amended: for the Apache marker-block mechanism Remove fails
with the distinct end-marker-missing error when the start marker is present
but no end marker follows it, and reports "not found" only when the start
marker is absent; the rsyslog shell-block variant instead treats a start
marker without a following end marker as "not installed" (found = false),
the same outcome as a file without markers. -/
theorem C6_marker_handling (c : Str) (r : Bool) (er : Option Str) :
    (∀ i, indexOfSub c Apachelog.startMarker = some i →
      indexOfSub (c.drop i) Apachelog.endMarker = none →
      Apachelog.Remove (some c) r er = (.error Apachelog.errEndMissing, some c)) ∧
    (indexOfSub c Apachelog.startMarker = none →
      Apachelog.Remove (some c) r er = (.error Apachelog.errNotFound, some c)) ∧
    (∀ i, indexOfSub c ShellBlock.shellMarkerStart = some i →
      indexOfSub (c.drop i) ShellBlock.shellMarkerEnd = none →
      ShellBlock.removeShellBlock c = (c, false)) := by
  refine ⟨?_, ?_, ?_⟩
  · intro i h1 h2
    simp only [Apachelog.Remove, h1, h2]
  · intro h1
    simp only [Apachelog.Remove, h1]
  · intro i h1 h2
    simp only [ShellBlock.removeShellBlock, h1, h2]

/-- Claim C6, witness: a file holding only the Apache start marker, a file
with no markers, and a file holding only the shell start marker. -/
theorem C6_marker_handling_witness :
    Apachelog.Remove (some "# BEGIN NixPersist apache-log\n".toList) false none =
      (.error Apachelog.errEndMissing, some "# BEGIN NixPersist apache-log\n".toList) ∧
    Apachelog.Remove (some "no markers here\n".toList) false none =
      (.error Apachelog.errNotFound, some "no markers here\n".toList) ∧
    ShellBlock.removeShellBlock "# BEGIN NixPersist shell execute\n".toList =
      ("# BEGIN NixPersist shell execute\n".toList, false) :=
  ⟨(C6_marker_handling "# BEGIN NixPersist apache-log\n".toList false none).1 0 rfl rfl,
   (C6_marker_handling "no markers here\n".toList false none).2.1 rfl,
   (C6_marker_handling "# BEGIN NixPersist shell execute\n".toList false none).2.2 0 rfl rfl⟩

/-- Claim C5: for every ConfigParams accepted by validation, RenderConfig
emits the supplied trigger predicates in the fixed order tag-match AND
substring-match, then OR'd with pattern-match, omitting any predicate not
supplied (the output is the head, the spec-side join, then the tail), and
rendering fails with an error whenever no predicate at all is supplied. -/
theorem C5_filter_join (p : RsOmprog.ConfigParams) :
    (RsOmprog.Validate p = .ok () →
      RsOmprog.RenderConfig p =
        .ok (RsOmprog.renderHead p ++ RsOmprog.specFilterClause p ++ RsOmprog.renderTail p)) ∧
    (p.FilterByTag = false → p.FilterContains = [] → p.FilterRegex = [] →
      ∃ msg, RsOmprog.RenderConfig p = .error msg) := by
  constructor
  · intro hv
    have hnb : ¬ (p.FilterContains = [] ∧ p.FilterRegex = []) := by
      intro hb
      simp only [RsOmprog.Validate] at hv
      split_ifs at hv <;> simp_all
    have hfp : RsOmprog.filterParts p = (RsOmprog.specFilterClause p, true) := by
      by_cases h1 : p.FilterByTag = true <;>
      by_cases h2 : p.FilterContains = [] <;>
      by_cases h3 : p.FilterRegex = [] <;>
        first
          | (simp [RsOmprog.filterParts, RsOmprog.specFilterClause, h1, h2, h3]; done)
          | exact absurd (And.intro h2 h3) hnb
    simp only [RsOmprog.RenderConfig, hv, hfp]
    simp
  · intro h1 h2 h3
    cases hvv : RsOmprog.Validate p with
    | error m => exact ⟨m, by simp only [RsOmprog.RenderConfig, hvv]⟩
    | ok u =>
      exfalso
      simp only [RsOmprog.Validate] at hvv
      split_ifs at hvv <;> simp_all

/-- Claim C5, witness: PoC-style parameters with a tag predicate and a
substring predicate, and parameters supplying no predicate at all. -/
theorem C5_filter_join_witness :
    RsOmprog.RenderConfig
        { InputFile := "/path/to/access.log".toList, Tag := "access".toList,
          Severity := [], Facility := [], AddMetadata := false, PollingInterval := 0,
          RulesetName := [], UseRuleset := false, StateFile := [],
          FilterContains := "Chrome".toList, FilterRegex := [], FilterByTag := true,
          ProgramPath := "/bin/echo".toList, ProgramArgs := [] } =
      .ok (RsOmprog.renderHead
            { InputFile := "/path/to/access.log".toList, Tag := "access".toList,
              Severity := [], Facility := [], AddMetadata := false, PollingInterval := 0,
              RulesetName := [], UseRuleset := false, StateFile := [],
              FilterContains := "Chrome".toList, FilterRegex := [], FilterByTag := true,
              ProgramPath := "/bin/echo".toList, ProgramArgs := [] } ++
           RsOmprog.specFilterClause
            { InputFile := "/path/to/access.log".toList, Tag := "access".toList,
              Severity := [], Facility := [], AddMetadata := false, PollingInterval := 0,
              RulesetName := [], UseRuleset := false, StateFile := [],
              FilterContains := "Chrome".toList, FilterRegex := [], FilterByTag := true,
              ProgramPath := "/bin/echo".toList, ProgramArgs := [] } ++
           RsOmprog.renderTail
            { InputFile := "/path/to/access.log".toList, Tag := "access".toList,
              Severity := [], Facility := [], AddMetadata := false, PollingInterval := 0,
              RulesetName := [], UseRuleset := false, StateFile := [],
              FilterContains := "Chrome".toList, FilterRegex := [], FilterByTag := true,
              ProgramPath := "/bin/echo".toList, ProgramArgs := [] }) ∧
    ∃ msg, RsOmprog.RenderConfig
        { InputFile := "/f".toList, Tag := "t".toList,
          Severity := [], Facility := [], AddMetadata := false, PollingInterval := 0,
          RulesetName := [], UseRuleset := false, StateFile := [],
          FilterContains := [], FilterRegex := [], FilterByTag := false,
          ProgramPath := "/bin/echo".toList, ProgramArgs := [] } = .error msg :=
  ⟨(C5_filter_join _).1 rfl,
   (C5_filter_join
      { InputFile := "/f".toList, Tag := "t".toList,
        Severity := [], Facility := [], AddMetadata := false, PollingInterval := 0,
        RulesetName := [], UseRuleset := false, StateFile := [],
        FilterContains := [], FilterRegex := [], FilterByTag := false,
        ProgramPath := "/bin/echo".toList, ProgramArgs := [] }).2 rfl rfl rfl⟩

theorem replaceAllF_single_not_mem {c : Char} {new : Str} (fuel : Nat) (s : Str)
    (h : c ∉ s) : replaceAllF [c] new fuel s = s := by
  induction fuel generalizing s with
  | zero => cases s <;> rfl
  | succ fuel ih =>
    cases s with
    | nil => rfl
    | cons a rest =>
      simp only [List.mem_cons, not_or] at h
      have hne : ([c].isPrefixOf (a :: rest)) = false := by
        have hba : (c == a) = false := beq_eq_false_iff_ne.mpr h.1
        simp [List.isPrefixOf, hba]
      simp only [replaceAllF, hne]
      simp only [Bool.false_eq_true, false_and, if_false]
      rw [ih rest h.2]

theorem replaceAll_single_not_mem {c : Char} {new : Str} {s : Str} (h : c ∉ s) :
    replaceAll [c] new s = s := replaceAllF_single_not_mem s.length s h

theorem line_trimSpace_self {mid tp : Str} (htp : trimSpace tp = tp) (hne : tp ≠ []) :
    trimSpace (ShellLine.dirHead ++ mid ++ "\" ^".toList ++ tp) =
      ShellLine.dirHead ++ mid ++ "\" ^".toList ++ tp := by
  apply trimSpace_eq_self
  · intro c hc
    simp only [List.append_assoc] at hc
    rw [List.head?_append_of_ne_nil _ (by simp [ShellLine.dirHead])] at hc
    rw [show ShellLine.dirHead.head? = some ':' from rfl] at hc
    rw [Option.some.injEq] at hc
    subst hc
    rfl
  · intro c hc
    rw [getLast?_append_of_ne_nil hne] at hc
    rw [← htp] at hc
    exact trimSpace_getLast_not hc

theorem quote_index {t tp : Str} (h : '"' ∉ t) :
    indexOfSub (t ++ "\" ^".toList ++ tp) ['"'] = some t.length := by
  rw [indexOfSub_eq_some_iff]
  constructor
  · rw [List.append_assoc, List.drop_left]
    exact ⟨_, rfl⟩
  · intro p hp hm
    have h1 := head_of_match (by simp) hm
    rw [List.append_assoc, List.getElem?_append_left hp] at h1
    exact getElem?_ne_of_not_mem h (h1.trans rfl)

theorem quote_index_assoc {t tp : Str} (h : '"' ∉ t) :
    indexOfSub (t ++ ("\" ^".toList ++ tp)) ['"'] = some t.length := by
  rw [← List.append_assoc]
  exact quote_index h

theorem isShellDirective_shape {t tp : Str} (hq : '"' ∉ t)
    (htp : trimSpace tp = tp) (hne : tp ≠ []) :
    ShellLine.isShellDirective (ShellLine.dirHead ++ t ++ "\" ^".toList ++ tp) = true := by
  have hts2 : trimSpace ('^' :: tp) = '^' :: tp := by
    apply trimSpace_eq_self
    · intro c hc
      rw [List.head?_cons, Option.some.injEq] at hc
      subst hc
      rfl
    · intro c hc
      rw [show ('^' :: tp) = ['^'] ++ tp from rfl, getLast?_append_of_ne_nil hne] at hc
      rw [← htp] at hc
      exact trimSpace_getLast_not hc
  have hpref : ShellLine.dirHead.isPrefixOf
      (ShellLine.dirHead ++ (t ++ ("\" ^".toList ++ tp))) = true :=
    List.isPrefixOf_iff_prefix.mpr (List.prefix_append _ _)
  have hcaret : (['^'] : Str).isPrefixOf ('^' :: tp) = true :=
    List.isPrefixOf_iff_prefix.mpr ⟨tp, rfl⟩
  unfold ShellLine.isShellDirective
  rw [line_trimSpace_self htp hne]
  simp only [List.append_assoc]
  rw [hpref]
  simp only [if_true]
  rw [List.drop_left]
  rw [quote_index_assoc hq]
  dsimp only
  rw [List.drop_append 1]
  rw [show (List.drop 1 ("\" ^".toList ++ tp) : Str) = ' ' :: '^' :: tp from rfl]
  rw [trimSpace_cons_of_space (by decide), hts2, hcaret]
  simp only [if_true]
  rw [show ('^' :: tp).drop 1 = tp from rfl, htp]
  simp [hne]

theorem quote_index_nocmd {t : Str} (h : '"' ∉ t) :
    indexOfSub (t ++ "\" ^".toList) ['"'] = some t.length := by
  rw [indexOfSub_eq_some_iff]
  constructor
  · rw [List.drop_left]
    exact ⟨_, rfl⟩
  · intro p hp hm
    have h1 := head_of_match (by simp) hm
    rw [List.getElem?_append_left hp] at h1
    exact getElem?_ne_of_not_mem h (h1.trans rfl)

theorem isShellDirective_empty_cmd {t : Str} (hq : '"' ∉ t) :
    ShellLine.isShellDirective (ShellLine.dirHead ++ t ++ "\" ^".toList) = false := by
  have hls : trimSpace (ShellLine.dirHead ++ t ++ "\" ^".toList) =
      ShellLine.dirHead ++ t ++ "\" ^".toList := by
    apply trimSpace_eq_self
    · intro c hc
      simp only [List.append_assoc] at hc
      rw [List.head?_append_of_ne_nil _ (by simp [ShellLine.dirHead])] at hc
      rw [show ShellLine.dirHead.head? = some ':' from rfl] at hc
      rw [Option.some.injEq] at hc
      subst hc
      rfl
    · intro c hc
      rw [getLast?_append_of_ne_nil (by simp)] at hc
      rw [show ("\" ^".toList : Str).getLast? = some '^' from rfl] at hc
      rw [Option.some.injEq] at hc
      subst hc
      rfl
  have hpref : ShellLine.dirHead.isPrefixOf
      (ShellLine.dirHead ++ (t ++ "\" ^".toList)) = true :=
    List.isPrefixOf_iff_prefix.mpr (List.prefix_append _ _)
  unfold ShellLine.isShellDirective
  rw [hls]
  simp only [List.append_assoc]
  rw [hpref]
  simp only [if_true]
  rw [List.drop_left]
  rw [show indexOfSub (t ++ "\" ^".toList) ['"'] = some t.length from quote_index_nocmd hq]
  dsimp only
  rw [List.drop_append 1]
  rw [show trimSpace (List.drop 1 ("\" ^".toList : Str)) = ['^'] from by decide]
  rfl

theorem removeFirstDirective_append {pre : List Str} {post : List Str} {l : Str}
    (hpre : ∀ x ∈ pre, ShellLine.isShellDirective x = false)
    (hl : ShellLine.isShellDirective l = true) :
    ShellLine.removeFirstDirective (pre ++ l :: post) =
      some (pre ++ ShellLine.skipBlankHead post) := by
  induction pre with
  | nil =>
    simp only [List.nil_append]
    simp [ShellLine.removeFirstDirective, hl]
  | cons a pre ih =>
    have ha := hpre a (List.mem_cons_self a pre)
    simp only [List.cons_append, ShellLine.removeFirstDirective, ha,
      Bool.false_eq_true, if_false, List.append_eq]
    rw [ih (fun x hx => hpre x (List.mem_cons_of_mem a hx))]
    rfl

/-- Claim C10: isShellDirective accepts every line of the shape
`:msg, contains, "..." ^command` with a non-empty command - in particular
the rendered line of ANY other parameters - and rejects the shape with an
empty command; removeShellDirective deletes exactly the first matching
line, consuming a single blank line immediately after it, and keeps every
other line (the remainder only undergoes the trailing-blank trim and
final-newline normalization). -/
theorem C10_remove_any_directive :
    (∀ p : ShellLine.ShellConfigParams, '"' ∉ p.Trigger → trimSpace p.Payload ≠ [] →
      ShellLine.isShellDirective (ShellLine.directiveLine p) = true) ∧
    (∀ t : Str, '"' ∉ t →
      ShellLine.isShellDirective (ShellLine.dirHead ++ t ++ "\" ^".toList) = false) ∧
    (∀ (pre post : List Str) (l : Str),
      (∀ x ∈ pre, ShellLine.isShellDirective x = false) →
      ShellLine.isShellDirective l = true →
      ShellLine.removeFirstDirective (pre ++ l :: post) =
        some (pre ++ ShellLine.skipBlankHead post)) ∧
    (∀ (pre post : List Str) (l : Str),
      (∀ x ∈ pre, ShellLine.isShellDirective x = false) →
      (∀ x ∈ pre ++ l :: post, '\n' ∉ x) →
      ShellLine.isShellDirective l = true →
      ShellLine.removeShellDirective (joinNl (pre ++ l :: post)) =
        (if ShellLine.dropTrailingBlanks (pre ++ ShellLine.skipBlankHead post) = []
         then []
         else joinNl (ShellLine.dropTrailingBlanks (pre ++ ShellLine.skipBlankHead post))
           ++ ['\n'],
         true)) := by
  refine ⟨?_, ?_, ?_, ?_⟩
  · intro p hq hne
    unfold ShellLine.directiveLine
    rw [show ShellLine.escapedTrigger p.Trigger = p.Trigger from
      replaceAll_single_not_mem hq]
    exact isShellDirective_shape hq (trimSpace_idem p.Payload) hne
  · intro t hq
    exact isShellDirective_empty_cmd hq
  · intro pre post l hpre hl
    exact removeFirstDirective_append hpre hl
  · intro pre post l hpre hnl hl
    unfold ShellLine.removeShellDirective
    rw [splitNl_joinNl _ (by simp) hnl]
    rw [removeFirstDirective_append hpre hl]
    by_cases hres :
        ShellLine.dropTrailingBlanks (pre ++ ShellLine.skipBlankHead post) = [] <;>
      simp [hres]

/-- Claim C10, witness: a directive line rendered from unrelated parameters
is recognized, the empty-command shape is rejected, and removal from the
lines a, directive, blank, b deletes the directive together with the blank
line while keeping a and b. -/
theorem C10_remove_any_directive_witness :
    ShellLine.isShellDirective
      (ShellLine.directiveLine ⟨"other".toList, "/bin/other".toList⟩) = true ∧
    ShellLine.isShellDirective
      (ShellLine.dirHead ++ "x".toList ++ "\" ^".toList) = false ∧
    ShellLine.removeFirstDirective
        (["a".toList] ++ ":msg, contains, \"x\" ^/p".toList :: [([] : Str), "b".toList]) =
      some (["a".toList] ++ ShellLine.skipBlankHead [([] : Str), "b".toList]) ∧
    ShellLine.removeShellDirective
        (joinNl (["a".toList] ++ ":msg, contains, \"x\" ^/p".toList ::
          [([] : Str), "b".toList])) =
      (if ShellLine.dropTrailingBlanks
            (["a".toList] ++ ShellLine.skipBlankHead [([] : Str), "b".toList]) = []
       then []
       else joinNl (ShellLine.dropTrailingBlanks
         (["a".toList] ++ ShellLine.skipBlankHead [([] : Str), "b".toList])) ++ ['\n'],
       true) :=
  ⟨C10_remove_any_directive.1 ⟨"other".toList, "/bin/other".toList⟩ (by decide) (by decide),
   C10_remove_any_directive.2.1 "x".toList (by decide),
   C10_remove_any_directive.2.2.1 ["a".toList] [([] : Str), "b".toList]
     ":msg, contains, \"x\" ^/p".toList (by decide) (by decide),
   C10_remove_any_directive.2.2.2 ["a".toList] [([] : Str), "b".toList]
     ":msg, contains, \"x\" ^/p".toList (by decide) (by decide) (by decide)⟩

theorem c1_content_eq (t : Str) :
    ("ServerName localhost\n".toList ++ ['\n']) ++
      (Apachelog.startMarker ++ '\n' ::
        ("CustomLog \"|".toList ++ t ++ "\" ".toList ++ Apachelog.logFormat ++ ['\n'])
        ++ Apachelog.endMarker ++ ['\n'])
    = c1Pre ++ (t ++ c1Suf) := by
  have hA : c1Pre
      = ("ServerName localhost\n".toList ++ ['\n']) ++ Apachelog.startMarker
        ++ ['\n'] ++ "CustomLog \"|".toList := by decide
  have hB : c1Suf
      = "\" ".toList ++ Apachelog.logFormat ++ ['\n'] ++ Apachelog.endMarker ++ ['\n'] := by
    decide
  rw [hA, hB]
  simp [List.append_assoc, List.cons_append, List.singleton_append]

theorem c1_drop22 (t : Str) :
    (c1Pre ++ (t ++ c1Suf)).drop 22 = c1Mid ++ (t ++ c1Suf) := by
  rw [List.drop_append_of_le_length (by decide)]
  rw [show c1Pre.drop 22 = c1Mid from by decide]

theorem c1_idx_start (t : Str) :
    indexOfSub (c1Pre ++ (t ++ c1Suf)) Apachelog.startMarker = some 22 := by
  rw [indexOfSub_eq_some_iff]
  constructor
  · rw [c1_drop22 t]
    rw [show c1Mid = Apachelog.startMarker ++ "\nCustomLog \"|".toList from by decide]
    rw [List.append_assoc]
    exact List.prefix_append _ _
  · intro p hp hmch
    have h1 := head_of_match (by decide) hmch
    rw [List.getElem?_append_left (lt_of_lt_of_le hp (by decide))] at h1
    rw [show Apachelog.startMarker[0]? = some '#' from rfl] at h1
    have hfact : ∀ q, q < 22 → c1Pre[q]? ≠ some '#' := by decide
    exact hfact p hp h1

theorem c1_idx_end (t : Str) (hm : containsSub t Apachelog.endMarker = false) :
    indexOfSub (c1Mid ++ (t ++ c1Suf)) Apachelog.endMarker = some (42 + t.length + 8) := by
  have hM2len : Apachelog.endMarker.length = 27 := rfl
  have hmidlen : c1Mid.length = 42 := rfl
  rw [indexOfSub_eq_some_iff]
  constructor
  · have harith : 42 + t.length + 8 = c1Mid.length + (t.length + 8) := by
      rw [hmidlen]; omega
    rw [harith, List.drop_append, List.drop_append 8]
    rw [show c1Suf.drop 8 = Apachelog.endMarker ++ ['\n'] from by decide]
    exact List.prefix_append _ _
  · intro p hp hmch
    by_cases hp1 : p < 42
    · by_cases hp0 : p = 0
      · subst hp0
        have h2 := prefix_drop_getElem hmch
          (show 2 < Apachelog.endMarker.length by decide)
        rw [show Apachelog.endMarker[2]? = some 'E' from rfl] at h2
        rw [show (0 + 2 : Nat) = 2 from rfl] at h2
        rw [List.drop_zero] at hmch
        rw [List.getElem?_append_left (show (2:Nat) < c1Mid.length by decide)] at h2
        rw [show c1Mid[2]? = some 'B' from rfl] at h2
        exact absurd h2 (by decide)
      · have h1 := head_of_match (by decide) hmch
        rw [List.getElem?_append_left
          (show p < c1Mid.length by rw [hmidlen]; exact hp1)] at h1
        rw [show Apachelog.endMarker[0]? = some '#' from rfl] at h1
        have hfact : ∀ q, q < 42 → q ≠ 0 → c1Mid[q]? ≠ some '#' := by decide
        exact hfact p hp1 hp0 h1
    · push_neg at hp1
      by_cases hp2 : p < 42 + t.length
      · have hdrop : (c1Mid ++ (t ++ c1Suf)).drop p = (t ++ c1Suf).drop (p - 42) := by
          conv_lhs => rw [show p = c1Mid.length + (p - 42) from by rw [hmidlen]; omega]
          exact List.drop_append _
        rw [hdrop] at hmch
        by_cases hfit : p - 42 + 27 ≤ t.length
        · rw [List.drop_append_of_le_length (by omega)] at hmch
          have hin := prefix_of_prefix_append hmch
            (by rw [hM2len, List.length_drop]; omega)
          have hcontra := containsSub_eq_true_iff.mpr ⟨p - 42, hin⟩
          rw [hm] at hcontra
          exact absurd hcontra (by decide)
        · push_neg at hfit
          have hj : t.length - (p - 42) < 27 := by omega
          have h2 := prefix_drop_getElem hmch (by rw [hM2len]; exact hj)
          rw [show p - 42 + (t.length - (p - 42)) = t.length from by omega] at h2
          rw [List.getElem?_append_right (le_refl _)] at h2
          rw [Nat.sub_self] at h2
          rw [show c1Suf[0]? = some '"' from rfl] at h2
          have hfact : ∀ j, j < 27 → Apachelog.endMarker[j]? ≠ some '"' := by decide
          exact hfact _ hj h2.symm
      · push_neg at hp2
        have hrlt : p - 42 - t.length < 8 := by omega
        have h1 := head_of_match (by decide) hmch
        rw [show Apachelog.endMarker[0]? = some '#' from rfl] at h1
        rw [List.getElem?_append_right
          (show c1Mid.length ≤ p by rw [hmidlen]; omega)] at h1
        rw [hmidlen] at h1
        rw [List.getElem?_append_right (show t.length ≤ p - 42 by omega)] at h1
        have hfact : ∀ r, r < 8 → c1Suf[r]? ≠ some '#' := by decide
        exact hfact _ hrlt h1

theorem c1_get21 (t : Str) : (c1Pre ++ (t ++ c1Suf))[21]? = some '\n' := by
  rw [List.getElem?_append_left (show (21:Nat) < c1Pre.length by decide)]
  decide

theorem c1_get20 (t : Str) : (c1Pre ++ (t ++ c1Suf))[20]? = some '\n' := by
  rw [List.getElem?_append_left (show (20:Nat) < c1Pre.length by decide)]
  decide

theorem c1_trimStart (t : Str) :
    Apachelog.computeTrimStart (c1Pre ++ (t ++ c1Suf)) 22 = 20 := by
  have h21 := c1_get21 t
  have h20 := c1_get20 t
  have hbs : Apachelog.backScanWT (c1Pre ++ (t ++ c1Suf)) 21 = some 21 := by
    have hstep : Apachelog.backScanWT (c1Pre ++ (t ++ c1Suf)) 21
        = if ((c1Pre ++ (t ++ c1Suf))[21]?.any Apachelog.isWT)
          then Apachelog.backScanWT (c1Pre ++ (t ++ c1Suf)) 20
          else some 21 := rfl
    rw [hstep, h21]
    simp [Apachelog.isWT]
  unfold Apachelog.computeTrimStart
  rw [if_pos (show (0:Nat) < 22 by omega)]
  rw [show (22 - 1 : Nat) = 21 from rfl]
  rw [hbs]
  dsimp only
  rw [if_pos h21]
  rw [if_pos ⟨by omega, show (c1Pre ++ (t ++ c1Suf))[21 - 1]? = some '\n' from h20⟩]

theorem c1_trimEnd (t : Str) :
    Apachelog.computeTrimEnd (c1Pre ++ (t ++ c1Suf)) (42 + t.length + 8 + 22 + 27)
      = (c1Pre ++ (t ++ c1Suf)).length := by
  unfold Apachelog.computeTrimEnd
  have hdrop : (c1Pre ++ (t ++ c1Suf)).drop (42 + t.length + 8 + 22 + 27) = ['\n'] := by
    rw [show 42 + t.length + 8 + 22 + 27 = c1Pre.length + (t.length + 35) from by
      rw [show c1Pre.length = 64 from rfl]; omega]
    rw [List.drop_append, List.drop_append 35]
    decide
  rw [hdrop]
  rw [show (List.takeWhile (fun c => c == '\n' || c == '\r') (['\n'] : Str)).length = 1
    from rfl]
  rw [List.length_append, List.length_append]
  rw [show c1Pre.length = 64 from rfl, show c1Suf.length = 36 from rfl]
  omega

theorem c1_remove (t : Str) (hm : containsSub t Apachelog.endMarker = false) :
    Apachelog.Remove (some (c1Pre ++ (t ++ c1Suf))) false none
      = (.ok (), some "ServerName localhost\n".toList) := by
  have hidx2 : indexOfSub ((c1Pre ++ (t ++ c1Suf)).drop 22) Apachelog.endMarker
      = some (42 + t.length + 8) := by
    rw [c1_drop22 t]
    exact c1_idx_end t hm
  simp only [Apachelog.Remove, c1_idx_start t, hidx2]
  rw [show (List.length Apachelog.endMarker) = 27 from rfl]
  rw [c1_trimStart t]
  rw [c1_trimEnd t]
  rw [if_neg (lt_irrefl _)]
  rw [List.append_nil]
  rw [List.take_append_of_le_length (show (20:Nat) ≤ c1Pre.length by decide)]
  rw [show c1Pre.take 20 = "ServerName localhost".toList from by decide]
  rw [show ("ServerName localhost".toList ++ ['\n'] : Str)
    = "ServerName localhost\n".toList from by decide]
  rw [if_pos (show (0 < ("ServerName localhost".toList : Str).length ∧
      ¬ ("ServerName localhost".toList : Str).getLast? = some '\n') from by decide)]
  simp

/-- Claim C1, amended: for the Apache marker-block mechanism, installing
into a file holding exactly "ServerName localhost\n" with valid params
whose trimmed payload does not contain the end-marker text, then removing,
restores the file to exactly "ServerName localhost\n". -/
theorem C1_round_trip (payload : Str)
    (hv : Apachelog.Validate ⟨payload⟩ = .ok ())
    (hm : containsSub (trimSpace payload) Apachelog.endMarker = false) :
    (Apachelog.Install ⟨payload⟩ (some "ServerName localhost\n".toList) false none).1
      = .ok () ∧
    Apachelog.Remove
      (Apachelog.Install ⟨payload⟩ (some "ServerName localhost\n".toList) false none).2
      false none
      = (.ok (), some "ServerName localhost\n".toList) := by
  have hr : Apachelog.RenderConfig ⟨payload⟩
      = .ok (Apachelog.startMarker ++ '\n' ::
          ("CustomLog \"|".toList ++ trimSpace payload ++ "\" ".toList
            ++ Apachelog.logFormat ++ ['\n'])
          ++ Apachelog.endMarker ++ ['\n']) := by
    simp only [Apachelog.RenderConfig, hv]
  have hic : ∀ X : Str,
      Apachelog.insertContent "ServerName localhost\n".toList X
        = ("ServerName localhost\n".toList ++ ['\n']) ++ X := by
    intro X
    simp only [Apachelog.insertContent]
    rw [if_neg (show ¬ (0 < ("ServerName localhost\n".toList : Str).length ∧
      hasSuffixB "ServerName localhost\n".toList ['\n'] = false) from by decide)]
    rw [if_pos (show 0 < ("ServerName localhost\n".toList : Str).length from by decide)]
  have hins : Apachelog.Install ⟨payload⟩
      (some "ServerName localhost\n".toList) false none
      = (.ok (), some (c1Pre ++ (trimSpace payload ++ c1Suf))) := by
    simp only [Apachelog.Install, hr]
    rw [if_neg (by decide)]
    rw [hic]
    rw [c1_content_eq (trimSpace payload)]
    simp
  constructor
  · rw [hins]
  · rw [hins]
    exact c1_remove (trimSpace payload) hm

/-- Claim C1, witness: the round trip with the concrete valid payload
"/usr/bin/apachesh". -/
theorem C1_round_trip_witness :
    Apachelog.Validate ⟨"/usr/bin/apachesh".toList⟩ = .ok () ∧
    containsSub (trimSpace "/usr/bin/apachesh".toList) Apachelog.endMarker = false ∧
    (Apachelog.Install ⟨"/usr/bin/apachesh".toList⟩
      (some "ServerName localhost\n".toList) false none).1 = .ok () ∧
    Apachelog.Remove
      (Apachelog.Install ⟨"/usr/bin/apachesh".toList⟩
        (some "ServerName localhost\n".toList) false none).2
      false none
      = (.ok (), some "ServerName localhost\n".toList) :=
  ⟨rfl, by decide,
   (C1_round_trip "/usr/bin/apachesh".toList rfl (by decide)).1,
   (C1_round_trip "/usr/bin/apachesh".toList rfl (by decide)).2⟩

end NixPersist
